import Mathlib

/-!
Verification development for the connection-lifecycle and query-execution
core of an editor extension for a remote analytic database.

The definitions below are shallow embeddings of the TypeScript source:
  - `isResultSetQuery`, `cleanQuery`, `executeFinalQuery`, `execute`,
    `executeAndFetch` embed `QueryExecutor` (src/queryExecutor.ts);
  - `getRowsFromResult`, `getColumnsFromResult`, `convertResultSetToRows`
    embed the result normalizer (src/utils.ts);
  - `CMState`, `addConnection`, `removeConnection`, `getDriverEv`,
    `resetDriver`, `executeWithRetry`, `validateDriver`,
    `isWebSocketHealthy`, `isConnectionError` embed `ConnectionManager`
    (src/connectionManager.ts).

External capabilities (the database driver, the secret store, the
key-value metadata store, wall-clock time) are modelled as explicit
parameters; asynchronous driver calls are recorded as `DriverEvent`
values so that theorems can speak about which driver operations a code
path performs.
-/

set_option autoImplicit false

namespace ExasolCore

/-! ## JavaScript-style helpers

The source relies on JavaScript truthiness in a few places
(`connectionId || this.activeConnection`, `limit || config.get(...)`,
`column.name || fallback`).  These helpers reproduce that behaviour:
the empty string and the number 0 are falsy. -/

def jsOrString : Option String → Option String → Option String
  | some s, alt => if s = "" then alt else some s
  | none, alt => alt

def jsOrNat : Option Nat → Nat → Nat
  | some n, d => if n = 0 then d else n
  | none, d => d

def jsOrStr (s : String) (d : String) : String :=
  if s = "" then d else s

/-- The idiom `const id = connectionId || this.activeConnection`
followed by a falsy check on `id`: the result is `none` whenever the
resolved id would be absent or the empty string. -/
def resolveId (connectionId : Option String) (active : Option String) :
    Option String :=
  match jsOrString connectionId active with
  | some s => if s = "" then none else some s
  | none => none

/-! ## Character/string utilities mirroring the regex operations -/

/-- JavaScript regex `\s` on the ASCII range. -/
def isWsChar (c : Char) : Bool :=
  c == ' ' || c == '\t' || c == '\n' || c == '\r' || c == '\x0b' || c == '\x0c'

/-- Substring test on character lists (JavaScript `String.includes`). -/
def hasSubList (pat : List Char) : List Char → Bool
  | [] => pat.isEmpty
  | c :: rest => pat.isPrefixOf (c :: rest) || hasSubList pat rest

/-- JavaScript `s.includes(pat)`. -/
def containsSub (s pat : String) : Bool :=
  hasSubList pat.toList s.toList

/-- Case-insensitive character equality (ASCII). -/
def charCI (a b : Char) : Bool := a.toLower == b.toLower

/-- JavaScript `trim` on a character list (whitespace from both
ends). -/
def trimList (cs : List Char) : List Char :=
  ((cs.dropWhile isWsChar).reverse.dropWhile isWsChar).reverse

/-- JavaScript `toUpperCase` (ASCII). -/
def toUpperStr (s : String) : String :=
  String.mk (s.toList.map Char.toUpper)

/-- JavaScript `toLowerCase` (ASCII). -/
def toLowerStr (s : String) : String :=
  String.mk (s.toList.map Char.toLower)

/-- JavaScript `s.startsWith(pat)`. -/
def startsWithStr (s pat : String) : Bool :=
  pat.toList.isPrefixOf s.toList

/-- Case-insensitive list-prefix test. -/
def ciStartsWith : List Char → List Char → Bool
  | [], _ => true
  | _ :: _, [] => false
  | p :: ps, c :: cs => charCI p c && ciStartsWith ps cs

/-- The global multiline replacement of the pattern `--.*$` by the
empty string: in every line, delete from the first `--` to the end of
that line (the newline itself survives).  Fuel-based so that the
kernel can evaluate it; callers pass the list length as fuel. -/
def stripLineCommentsAux : Nat → List Char → List Char
  | 0, cs => cs
  | _ + 1, [] => []
  | fuel + 1, '-' :: '-' :: cs =>
      stripLineCommentsAux fuel (cs.dropWhile (fun c => !(c == '\n')))
  | fuel + 1, c :: cs => c :: stripLineCommentsAux fuel cs

/-- Scan for the first `*/` and return the remainder after it. -/
def findBlockClose : List Char → Option (List Char)
  | [] => none
  | '*' :: '/' :: rest => some rest
  | _ :: cs => findBlockClose cs

/-- The global lazy block-comment replacement: delete each lazily
matched block comment.  When an opener has no closing `*/` anywhere
after it, the regex has no further match, so the rest is kept. -/
def stripBlockCommentsAux : Nat → List Char → List Char
  | 0, cs => cs
  | _ + 1, [] => []
  | fuel + 1, '/' :: '*' :: cs =>
      match findBlockClose cs with
      | some rest => stripBlockCommentsAux fuel rest
      | none => '/' :: '*' :: cs
  | fuel + 1, c :: cs => c :: stripBlockCommentsAux fuel cs

/-! ## QueryClassifier (QueryExecutor.isResultSetQuery) -/

/-- Helper for `selectIntoTest`: does `cs` begin with `\s+INTO\s`
(case-insensitive `INTO`)? -/
def wsIntoWs (cs : List Char) : Bool :=
  (List.range (cs.length + 1)).any (fun k =>
    decide (1 ≤ k) &&
    (cs.take k).all isWsChar &&
    ciStartsWith "into".toList (cs.drop k) &&
    (match (cs.drop (k + 4)).head? with
     | some c => isWsChar c
     | none => false))

/-- The test `/^SELECT\s+.*\s+INTO\s+/i.test(cleaned)` expressed as an
explicit search over the decompositions the regex can use: after a
case-insensitive `SELECT`, one-or-more whitespace, a newline-free
middle, then whitespace, `INTO`, whitespace. -/
def selectIntoTest (cs : List Char) : Bool :=
  if ciStartsWith "select".toList cs then
    let rest := cs.drop 6
    let n := rest.length
    (List.range (n + 1)).any (fun i =>
      (List.range (n + 1)).any (fun j =>
        decide (1 ≤ i) && decide (i ≤ j) &&
        (rest.take i).all isWsChar &&
        ((rest.drop i).take (j - i)).all (fun c => !(c == '\n')) &&
        wsIntoWs (rest.drop j)))
  else false

/-- First-keyword extraction, `cleaned.match(/^([a-zA-Z]+)/)`. -/
def firstWordOf (cs : List Char) : Option String :=
  let w := cs.takeWhile (fun c => c.isAlpha)
  if w.isEmpty then none else some (String.mk w)

/-- Keywords routed to the result-returning call path. -/
def resultSetCommands : List String :=
  ["SELECT", "WITH", "SHOW", "DESCRIBE", "DESC", "EXPLAIN", "FETCH",
   "VALUES", "TABLE"]

/-- Keywords routed to the no-result call path. -/
def executeCommands : List String :=
  ["CREATE", "ALTER", "DROP", "RENAME", "COMMENT",
   "INSERT", "UPDATE", "DELETE", "TRUNCATE", "MERGE", "IMPORT", "EXPORT",
   "GRANT", "REVOKE",
   "COMMIT", "ROLLBACK",
   "SET", "EXECUTE", "KILL", "OPEN", "CLOSE", "CONSUMER", "IMPERSONATE",
   "RECOMPRESS", "REORGANIZE", "FLUSH", "PRELOAD"]

/-- Embedding of `QueryExecutor.isResultSetQuery`: trim, strip leading
statement separators and parentheses, strip line comments, strip block
comments, apply the SELECT-INTO override, then look the first keyword
up in the two fixed sets; unknown keywords default to `true`. -/
def isResultSetQuery (query : String) : Bool :=
  let cleaned0 := (((trimList query.toList).dropWhile (· = ';')).dropWhile (· = '('))
  let cleaned1 := stripLineCommentsAux cleaned0.length cleaned0
  let cleaned := stripBlockCommentsAux cleaned1.length cleaned1
  if selectIntoTest cleaned then
    false
  else
    match firstWordOf cleaned with
    | none => true
    | some w =>
      let firstWord := toUpperStr w
      if executeCommands.contains firstWord then false
      else if resultSetCommands.contains firstWord then true
      else true

/-! ## Query-text normalization in QueryExecutor.execute -/

/-- Trim, strip the trailing semicolon run, trim again: after the
first trim there is no trailing whitespace, so the anchored
`;+\s*$` replacement removes exactly the trailing run of
semicolons. -/
def cleanQuery (query : String) : String :=
  String.mk
    (trimList (((trimList query.toList).reverse.dropWhile (· = ';')).reverse))

/-- The `finalQuery` computation in `execute`: append the configured
row ceiling when the text starts with `SELECT` and does not contain
the substring `LIMIT` (both checks on the upper-cased text). -/
def executeFinalQuery (query : String) (maxRows : Nat) : String :=
  let finalQuery := cleanQuery query
  if startsWithStr (toUpperStr finalQuery) "SELECT" &&
      !(containsSub (toUpperStr finalQuery) "LIMIT") then
    finalQuery ++ " LIMIT " ++ toString maxRows
  else
    finalQuery

/-! ## ResultNormalizer (utils.ts)

The driver returns either a typed object exposing row/column accessor
methods, or a raw protocol envelope with a `status` discriminator and
a list of result entries.  Values inside rows are opaque JSON-ish
scalars. -/

inductive JsonVal where
  | str (s : String)
  | num (n : Int)
  | boolean (b : Bool)
  | null
  deriving DecidableEq, Repr

/-- A normalized row: column name to value, in column order. -/
def Row : Type := List (String × JsonVal)

instance : DecidableEq Row := by
  unfold Row; exact inferInstance

structure DataTypeInfo where
  type : String
  precision : Option Nat
  scale : Option Nat
  size : Option Nat
  deriving DecidableEq, Repr

structure SQLColumn where
  name : String
  dataType : Option DataTypeInfo
  deriving DecidableEq, Repr

/-- Column-major result-set payload of a raw envelope. -/
structure ResultSetData where
  columns : List SQLColumn
  data : List (List JsonVal)
  deriving DecidableEq, Repr

structure ExaException where
  text : String
  deriving DecidableEq, Repr

structure ResultEntry where
  resultType : String
  resultSet : Option ResultSetData
  rowCount : Option Nat
  deriving DecidableEq, Repr

structure ResponseData where
  results : List ResultEntry
  deriving DecidableEq, Repr

/-- Raw protocol envelope (the raw response type). -/
structure RawResponse where
  status : String
  exception : Option ExaException
  responseData : Option ResponseData
  deriving DecidableEq, Repr

/-- The two driver response shapes dispatched on in the source. -/
inductive DriverResult where
  | typed (columns : List SQLColumn) (rows : List Row)
  | raw (r : RawResponse)
  deriving DecidableEq

/-- The fallback chain on the reported exception text (a missing or
empty text falls back to a generic message). -/
def rawErrorMessage (r : RawResponse) : String :=
  match r.exception with
  | some ex => jsOrStr ex.text "Query execution failed"
  | none => "Query execution failed"

/-- Embedding of `convertResultSetToRows`. -/
def convertResultSetToRows (resultSet : Option ResultSetData) : List Row :=
  match resultSet with
  | none => []
  | some rs =>
    let columns := rs.columns
    let columnData := rs.data
    let rowCount := (columnData.head?.getD []).length
    (List.range rowCount).map (fun rowIndex =>
      columns.enum.map (fun p =>
        let columnIndex := p.1
        let column := p.2
        let values := columnData.getD columnIndex []
        let columnName :=
          jsOrStr column.name ("COLUMN_" ++ toString (columnIndex + 1))
        (columnName, values.getD rowIndex JsonVal.null)))

/-- Embedding of `getRowsFromResult`; a thrown `Error` becomes
`Except.error` carrying the message. -/
def getRowsFromResult : DriverResult → Except String (List Row)
  | .typed _ rows => .ok rows
  | .raw r =>
    if r.status = "error" then
      .error (rawErrorMessage r)
    else
      match r.responseData with
      | none => .ok []
      | some rd =>
        match rd.results.head? with
        | none => .ok []
        | some firstResult =>
          if firstResult.resultType = "resultSet" then
            .ok (convertResultSetToRows firstResult.resultSet)
          else
            .ok []

/-- Embedding of `getColumnsFromResult`. -/
def getColumnsFromResult : DriverResult → Except String (List SQLColumn)
  | .typed cols _ => .ok cols
  | .raw r =>
    if r.status = "error" then
      .error (rawErrorMessage r)
    else
      match r.responseData with
      | none => .ok []
      | some rd =>
        match rd.results.head? with
        | none => .ok []
        | some firstResult =>
          if firstResult.resultType = "resultSet" then
            .ok (match firstResult.resultSet with
                 | some rs => rs.columns
                 | none => [])
          else
            .ok []

/-! ## QueryExecutor result shape -/

structure ColumnMetadata where
  name : String
  type : String
  precision : Option Nat
  scale : Option Nat
  size : Option Nat
  deriving DecidableEq, Repr

structure QueryResult where
  columns : List String
  columnMetadata : List ColumnMetadata
  rows : List Row
  rowCount : Nat
  executionTime : Nat
  deriving DecidableEq

/-- Embedding of `QueryExecutor.extractColumnMetadata`. -/
def extractColumnMetadata (colsMeta : List SQLColumn) : List ColumnMetadata :=
  colsMeta.map (fun col =>
    match col.dataType with
    | some dt =>
      { name := col.name
        type := jsOrStr dt.type "VARCHAR"
        precision := dt.precision
        scale := dt.scale
        size := dt.size }
    | none =>
      { name := col.name, type := "VARCHAR"
        precision := none, scale := none, size := none })

/-! ## ConnectionManager data model -/

/-- Caller-supplied connection spec (`ExasolConnection`). -/
structure ExasolConnection where
  name : String
  host : String
  user : String
  password : String
  database : Option String
  schema : Option String
  deriving DecidableEq, Repr

/-- A stored record (`StoredConnection`): the spec plus the assigned
id. -/
structure StoredConnection where
  id : String
  name : String
  host : String
  user : String
  password : String
  database : Option String
  schema : Option String
  deriving DecidableEq, Repr

/-- What `saveConnections` writes to the non-secret metadata store:
the record with the `password` field structurally removed
(`const password-free rest of conn` via object destructuring). -/
structure MetaConnection where
  id : String
  name : String
  host : String
  user : String
  database : Option String
  schema : Option String
  deriving DecidableEq, Repr

def stripPassword (c : StoredConnection) : MetaConnection :=
  { id := c.id, name := c.name, host := c.host, user := c.user
    database := c.database, schema := c.schema }

/-! ### Insertion-ordered maps (JavaScript `Map`) -/

def mapGet {α : Type} (k : String) : List (String × α) → Option α
  | [] => none
  | (k1, v1) :: rest => if k1 = k then some v1 else mapGet k rest

def mapSet {α : Type} (k : String) (v : α) : List (String × α) → List (String × α)
  | [] => [(k, v)]
  | (k1, v1) :: rest =>
    if k1 = k then (k1, v) :: rest else (k1, v1) :: mapSet k v rest

def mapDelete {α : Type} (k : String) (l : List (String × α)) : List (String × α) :=
  l.filter (fun p => !(p.1 == k))

/-! ### Driver handles and stale-handle validation -/

/-- Outcome of the tier-2 round-trip probe (a trivial SELECT query)
raced against the configured validation timeout. -/
inductive ProbeOutcome where
  | success
  | failure
  | timeout
  deriving DecidableEq, Repr

/-- A live driver handle.  `readyState` is the underlying transport
liveness flag when the introspection succeeds (`none` models an
inaccessible flag); `probe` is how the round-trip probe would end if
issued. -/
structure DriverHandle where
  readyState : Option Nat
  probe : ProbeOutcome
  deriving DecidableEq, Repr

/-- Embedding of `isWebSocketHealthy`: inspect the transport flag when
available (open = 1); otherwise fall through to query validation. -/
def isWebSocketHealthy (d : DriverHandle) : Bool :=
  match d.readyState with
  | some rs => rs == 1
  | none => true

structure ValidationOutcome where
  isValid : Bool
  probeIssued : Bool
  deriving DecidableEq, Repr

/-- Embedding of `validateDriver`: tier-1 transport-flag check, then
the tier-2 bounded round-trip probe.  `probeIssued` records whether
the round-trip probe was dispatched to the driver. -/
def validateDriver (d : DriverHandle) : ValidationOutcome :=
  if !(isWebSocketHealthy d) then
    { isValid := false, probeIssued := false }
  else
    match d.probe with
    | .success => { isValid := true, probeIssued := true }
    | .failure => { isValid := false, probeIssued := true }
    | .timeout => { isValid := false, probeIssued := true }

/-! ### The registry state -/

/-- The mutable state of a `ConnectionManager` instance together with
its two external stores: `secrets` is the secret store (keys of the
form `exasol.password.` followed by the id), `globalMeta` is the value
the metadata store holds under `exasol.connections`. -/
structure CMState where
  connections : List (String × StoredConnection)
  activeConnection : Option String
  drivers : List (String × DriverHandle)
  secrets : List (String × String)
  globalMeta : List MetaConnection
  deriving DecidableEq

def getConnections (st : CMState) : List StoredConnection :=
  st.connections.map (·.2)

def getActiveConnection (st : CMState) : Option StoredConnection :=
  match st.activeConnection with
  | none => none
  | some id => if id = "" then none else mapGet id st.connections

/-- Embedding of `saveConnections`: persist the password-stripped
records. -/
def saveConnections (connections : List (String × StoredConnection)) :
    List MetaConnection :=
  (connections.map (·.2)).map stripPassword

/-- Embedding of `addConnection`.  `now` stands for `Date.now()`;
`testOk` is the outcome of the synchronous connectivity test against
the external driver (`testConnection` opens and closes a probe
handle).  On test failure nothing is persisted. -/
def addConnection (st : CMState) (connection : ExasolConnection)
    (now : Nat) (testOk : Bool) : Except String (String × CMState) :=
  let id := connection.name ++ "-" ++ toString now
  let stored : StoredConnection :=
    { id := id, name := connection.name, host := connection.host
      user := connection.user, password := connection.password
      database := connection.database, schema := connection.schema }
  if testOk then
    let connections := mapSet id stored st.connections
    let secrets :=
      mapSet ("exasol.password." ++ id) connection.password st.secrets
    .ok (id, { st with
                connections := connections
                secrets := secrets
                globalMeta := saveConnections connections })
  else
    .error "Connection test failed"

/-- Embedding of `removeConnection`: delete metadata and secret, evict
the handle, and when the removed id was active move the pointer to the
value produced by the first step of iterating the remaining map, or
unset it when none remains. -/
def removeConnection (st : CMState) (id : String) : CMState :=
  let connections := mapDelete id st.connections
  let secrets := mapDelete ("exasol.password." ++ id) st.secrets
  let drivers := mapDelete id st.drivers
  let activeConnection :=
    if st.activeConnection = some id then
      match connections.head? with
      | some p => some p.2.id
      | none => none
    else
      st.activeConnection
  { connections := connections
    activeConnection := activeConnection
    drivers := drivers
    secrets := secrets
    globalMeta := saveConnections connections }

/-- Embedding of `resetDriver`: best-effort close (closing errors are
swallowed) and eviction of the cached handle. -/
def resetDriver (st : CMState) (connectionId : Option String) : CMState :=
  match resolveId connectionId st.activeConnection with
  | none => st
  | some id => { st with drivers := mapDelete id st.drivers }

/-! ### Driver acquisition -/

/-- Driver operations observable by theorems: connecting a new handle,
the validation probe, the result-returning call, the no-result call. -/
inductive DriverEvent where
  | connect
  | probeQuery (sql : String)
  | queryCall (sql : String)
  | execCall (sql : String)
  deriving DecidableEq, Repr

def isDispatchEvent : DriverEvent → Bool
  | .queryCall _ => true
  | .execCall _ => true
  | _ => false

/-- Embedding of `getDriver`, with the driver calls it performs
recorded as events.  `fresh` is the handle the external driver yields
when a new connection is established. -/
def getDriverEv (st : CMState) (connectionId : Option String)
    (fresh : DriverHandle) :
    Except String (DriverHandle × CMState × List DriverEvent) :=
  match resolveId connectionId st.activeConnection with
  | none => .error "No active connection"
  | some id =>
    match mapGet id st.connections with
    | none => .error ("Connection " ++ id ++ " not found")
    | some _ =>
      match mapGet id st.drivers with
      | some d =>
        let v := validateDriver d
        let evs :=
          if v.probeIssued then [DriverEvent.probeQuery "SELECT 1"] else []
        if v.isValid then
          .ok (d, st, evs)
        else
          let st1 := { st with drivers := mapDelete id st.drivers }
          .ok (fresh,
               { st1 with drivers := mapSet id fresh st1.drivers },
               evs ++ [DriverEvent.connect])
      | none =>
        .ok (fresh,
             { st with drivers := mapSet id fresh st.drivers },
             [DriverEvent.connect])

/-! ### The retry choke point -/

/-- Embedding of `isConnectionError`: the closed, table-driven set of
transient-connection predicates over the error message. -/
def isConnectionError (errorMsg : String) : Bool :=
  containsSub errorMsg "E-EDJS-8" ||
  containsSub errorMsg "pool reached its limit" ||
  containsSub errorMsg "ECONNRESET" ||
  containsSub errorMsg "EPIPE" ||
  containsSub errorMsg "ETIMEDOUT" ||
  containsSub errorMsg "ENOTFOUND" ||
  containsSub errorMsg "ECONNREFUSED" ||
  containsSub errorMsg "connection closed" ||
  containsSub errorMsg "WebSocket" ||
  containsSub errorMsg "socket hang up" ||
  containsSub (toLowerStr errorMsg) "timeout"

/-- Result of one `executeWithRetry` call: the returned or propagated
outcome, the final state, the driver events of all attempts, how often
`fn` was invoked and how often the handle was reset. -/
structure RetryOutcome (α : Type) where
  result : Except String α
  state : CMState
  events : List DriverEvent
  fnCalls : Nat
  resets : Nat

/-- Embedding of `executeWithRetry`.  `fn` is the wrapped operation;
it receives the attempt index and the current state and yields an
outcome, the successor state and its driver events.  On a transient
first failure with a resolvable id the handle is reset, a fixed
debounce elapses (time is not modelled), and `fn` runs exactly once
more; otherwise the error propagates unchanged. -/
def executeWithRetry {α : Type} (st : CMState)
    (fn : Nat → CMState → Except String α × CMState × List DriverEvent)
    (connectionId : Option String) : RetryOutcome α :=
  let t0 := fn 0 st
  match t0.1 with
  | .ok v => ⟨.ok v, t0.2.1, t0.2.2, 1, 0⟩
  | .error e =>
    if isConnectionError e then
      match resolveId connectionId t0.2.1.activeConnection with
      | some id =>
        let st1 := resetDriver t0.2.1 (some id)
        let t1 := fn 1 st1
        ⟨t1.1, t1.2.1, t0.2.2 ++ t1.2.2, 2, 1⟩
      | none => ⟨.error e, t0.2.1, t0.2.2, 1, 0⟩
    else
      ⟨.error e, t0.2.1, t0.2.2, 1, 0⟩

/-! ## QueryExecutor.execute and executeAndFetch -/

/-- External behaviour surrounding one `execute` call: the handle a
new connect yields per attempt, the responses of the two driver call
paths per attempt (`Except.error` models a thrown driver error), the
cancellation-token readings at the two poll points, and the elapsed
wall-clock time. -/
structure ExecEnv where
  fresh : Nat → DriverHandle
  queryResp : Nat → Except String DriverResult
  execResp : Nat → Except String DriverResult
  preCancelled : Bool
  postCancelled : Bool
  elapsed : Nat

/-- Normalization of the result-set path of `execute`. -/
def normalizeResultSet (resp : DriverResult) (dt : Nat) :
    Except String QueryResult :=
  match getColumnsFromResult resp with
  | .error e => .error e
  | .ok colsMeta =>
    match getRowsFromResult resp with
    | .error e => .error e
    | .ok rows =>
      .ok { columns := colsMeta.map (·.name)
            columnMetadata := extractColumnMetadata colsMeta
            rows := rows
            rowCount := rows.length
            executionTime := dt }

/-- The optional-chained affected-row count of the first result entry
of a raw envelope, defaulting to 0. -/
def rawFirstRowCount : DriverResult → Nat
  | .typed _ _ => 0
  | .raw r =>
    match r.responseData with
    | none => 0
    | some rd =>
      match rd.results.head? with
      | none => 0
      | some fr => fr.rowCount.getD 0

/-- Normalization of the no-result path of `execute`: `rowCount` falls
back to the affected-row count of the raw envelope. -/
def normalizeExecute (resp : DriverResult) (dt : Nat) :
    Except String QueryResult :=
  match getColumnsFromResult resp with
  | .error e => .error e
  | .ok colsMeta =>
    match getRowsFromResult resp with
    | .error e => .error e
    | .ok rows =>
      .ok { columns := colsMeta.map (·.name)
            columnMetadata := extractColumnMetadata colsMeta
            rows := rows
            rowCount := if rows.length > 0 then rows.length
                        else rawFirstRowCount resp
            executionTime := dt }

/-- One attempt of the function `execute` passes to
`executeWithRetry`: obtain a driver (`getDriver()` with no explicit
id), poll the token, dispatch along the classified path, poll the
token again, normalize. -/
def executeAttempt (env : ExecEnv) (finalQuery : String) (attempt : Nat)
    (st : CMState) : Except String QueryResult × CMState × List DriverEvent :=
  match getDriverEv st none (env.fresh attempt) with
  | .error e => (.error e, st, [])
  | .ok (_, st1, evs) =>
    if env.preCancelled then
      (.error "Query execution was cancelled", st1, evs)
    else if isResultSetQuery finalQuery then
      let evs := evs ++ [DriverEvent.queryCall finalQuery]
      match env.queryResp attempt with
      | .error e => (.error e, st1, evs)
      | .ok resp =>
        if env.postCancelled then
          (.error "Query execution was cancelled", st1, evs)
        else
          (normalizeResultSet resp env.elapsed, st1, evs)
    else
      let evs := evs ++ [DriverEvent.execCall finalQuery]
      match env.execResp attempt with
      | .error e => (.error e, st1, evs)
      | .ok resp =>
        if env.postCancelled then
          (.error "Query execution was cancelled", st1, evs)
        else
          (normalizeExecute resp env.elapsed, st1, evs)

/-- Embedding of `QueryExecutor.execute`.  `cfgMaxRows` is the
`maxResultRows` configuration entry (`none` means unset, default
10000). -/
def execute (st : CMState) (query : String) (cfgMaxRows : Option Nat)
    (env : ExecEnv) : RetryOutcome QueryResult :=
  match getActiveConnection st with
  | none =>
    ⟨.error "No active connection. Please add a connection first.",
     st, [], 0, 0⟩
  | some _ =>
    let maxRows := cfgMaxRows.getD 10000
    let finalQuery := executeFinalQuery query maxRows
    executeWithRetry st (executeAttempt env finalQuery) none

/-- One attempt of the function `executeAndFetch` passes to
`executeWithRetry`: always the result-returning call path, with the
returned rows truncated to `maxRows`. -/
def fetchAttempt (env : ExecEnv) (query : String) (maxRows : Nat)
    (attempt : Nat) (st : CMState) :
    Except String QueryResult × CMState × List DriverEvent :=
  match getDriverEv st none (env.fresh attempt) with
  | .error e => (.error e, st, [])
  | .ok (_, st1, evs) =>
    let evs := evs ++ [DriverEvent.queryCall query]
    match env.queryResp attempt with
    | .error e => (.error e, st1, evs)
    | .ok resp =>
      match getColumnsFromResult resp with
      | .error e => (.error e, st1, evs)
      | .ok colsMeta =>
        match getRowsFromResult resp with
        | .error e => (.error e, st1, evs)
        | .ok allRows =>
          let rows := allRows.take maxRows
          (.ok { columns := colsMeta.map (·.name)
                 columnMetadata := extractColumnMetadata colsMeta
                 rows := rows
                 rowCount := rows.length
                 executionTime := env.elapsed }, st1, evs)

/-- Embedding of `QueryExecutor.executeAndFetch`: the caller-supplied
cap replaces SQL-text rewriting; a falsy cap (0 or absent) falls back
to the configured `maxResultRows` default. -/
def executeAndFetch (st : CMState) (query : String) (limit : Option Nat)
    (cfgMaxRows : Option Nat) (env : ExecEnv) : RetryOutcome QueryResult :=
  let maxRows := jsOrNat limit (cfgMaxRows.getD 10000)
  executeWithRetry st (fetchAttempt env query maxRows) none

/-! ## Association-map lemmas -/

theorem mapGet_mapSet_self {α : Type} (k : String) (v : α) (l : List (String × α)) :
    mapGet k (mapSet k v l) = some v := by
  induction l with
  | nil => simp [mapSet, mapGet]
  | cons p rest ih =>
    obtain ⟨k1, v1⟩ := p
    by_cases h : k1 = k
    · simp [mapSet, mapGet, h]
    · simp [mapSet, mapGet, h, ih]

theorem mem_values_mapSet {α : Type} (k : String) (v : α) (l : List (String × α)) :
    v ∈ (mapSet k v l).map (·.2) := by
  induction l with
  | nil => simp [mapSet]
  | cons p rest ih =>
    obtain ⟨k1, v1⟩ := p
    by_cases h : k1 = k
    · simp [mapSet, h]
    · simp [mapSet, h]
      right
      simpa using ih

theorem mapGet_mapDelete_self {α : Type} (k : String) (l : List (String × α)) :
    mapGet k (mapDelete k l) = none := by
  induction l with
  | nil => simp [mapDelete, mapGet]
  | cons p rest ih =>
    obtain ⟨k1, v1⟩ := p
    simp only [mapDelete, List.filter_cons] at ih ⊢
    by_cases h : k1 = k
    · simp [h, ih]
    · simp [h, mapGet, ih]

theorem mem_mapDelete {α : Type} (k : String) (l : List (String × α))
    (p : String × α) (h : p ∈ mapDelete k l) : p ∈ l ∧ p.1 ≠ k := by
  unfold mapDelete at h
  have h2 := List.of_mem_filter h
  refine ⟨List.mem_of_mem_filter h, ?_⟩
  simpa using h2

/-! ## Claim C2 — classifier versus leading line comments -/

/-- Claim C2: the spec states that stripping comments makes the first
real keyword decide the classification, and in particular that the
text consisting of a line comment followed by an INSERT statement is
classified as side-effecting.  The code disagrees: the line-comment
replacement leaves the newline in place, the start-anchored
first-keyword match then fails, and the classifier falls back to its
projecting default.  This theorem evaluates the classifier at the
failing input from the spec: with the leading comment the INSERT text
is classified projecting (`true`), although the same statement without
the comment is classified side-effecting (`false`). -/
theorem claim_C2_comment_classification :
    isResultSetQuery "-- note\nINSERT INTO t VALUES (1)" = true ∧
    isResultSetQuery "INSERT INTO t VALUES (1)" = false := by
  constructor <;> decide

/-! ## Claim C4 — the auto-appended row ceiling -/

/-- Claim C4, corrected: the ceiling is appended exactly when the
normalized text starts with `SELECT` (upper-cased comparison) and does
not contain the substring `LIMIT` anywhere; a text that already
contains `LIMIT`, and any text not starting with `SELECT` (even a
projecting one), is dispatched unchanged. -/
theorem claim_C4_limit (query : String) (maxRows : Nat) :
    (startsWithStr (toUpperStr (cleanQuery query)) "SELECT" = true →
      containsSub (toUpperStr (cleanQuery query)) "LIMIT" = false →
      executeFinalQuery query maxRows =
        cleanQuery query ++ " LIMIT " ++ toString maxRows) ∧
    (containsSub (toUpperStr (cleanQuery query)) "LIMIT" = true →
      executeFinalQuery query maxRows = cleanQuery query) ∧
    (startsWithStr (toUpperStr (cleanQuery query)) "SELECT" = false →
      executeFinalQuery query maxRows = cleanQuery query) := by
  refine ⟨?_, ?_, ?_⟩
  · intro h1 h2
    simp [executeFinalQuery, h1, h2]
  · intro h2
    simp [executeFinalQuery, h2]
  · intro h1
    simp [executeFinalQuery, h1]

/-- Witness for claim C4: with the default configuration the bare
SELECT gains the ceiling and the SELECT with an explicit LIMIT is left
untouched. -/
theorem claim_C4_limit_witness :
    executeFinalQuery "SELECT * FROM T" 10000 =
      cleanQuery "SELECT * FROM T" ++ " LIMIT " ++ toString 10000 ∧
    executeFinalQuery "SELECT * FROM T LIMIT 5" 10000 =
      cleanQuery "SELECT * FROM T LIMIT 5" :=
  ⟨(claim_C4_limit "SELECT * FROM T" 10000).1 (by decide) (by decide),
   (claim_C4_limit "SELECT * FROM T LIMIT 5" 10000).2.1 (by decide)⟩

/-- Counterexample for claim C4 as stated: a WITH query is projecting
(the classifier sends it down the result-set path) and declares no row
ceiling, yet `execute` dispatches it unchanged — no `LIMIT` is
appended, because the code keys the rewrite on a literal `SELECT`
prefix rather than on the classification. -/
theorem claim_C4_cx :
    isResultSetQuery "WITH A AS (SELECT 1) SELECT * FROM A" = true ∧
    containsSub (toUpperStr "WITH A AS (SELECT 1) SELECT * FROM A") "LIMIT" = false ∧
    executeFinalQuery "WITH A AS (SELECT 1) SELECT * FROM A" 10000 =
      "WITH A AS (SELECT 1) SELECT * FROM A" := by
  refine ⟨?_, ?_, ?_⟩ <;> decide

/-! ## Claim C5 — result normalization of raw envelopes -/

/-- Claim C5: a raw envelope with failure status makes both halves of
the normalizer throw with the driver-reported message verbatim (the
envelope reports a nonempty message); a success envelope whose first
result entry is not a tabular `resultSet` entry normalizes to zero
columns and zero rows without throwing. -/
theorem claim_C5_normalizer :
    (∀ (r : RawResponse) (m : String),
      r.status = "error" → r.exception = some ⟨m⟩ → m ≠ "" →
      getRowsFromResult (.raw r) = .error m ∧
      getColumnsFromResult (.raw r) = .error m) ∧
    (∀ (r : RawResponse) (rd : ResponseData) (fr : ResultEntry)
        (rest : List ResultEntry),
      r.status = "ok" → r.responseData = some rd → rd.results = fr :: rest →
      fr.resultType ≠ "resultSet" →
      getRowsFromResult (.raw r) = .ok [] ∧
      getColumnsFromResult (.raw r) = .ok []) := by
  constructor
  · intro r m hs he hm
    constructor <;>
      simp [getRowsFromResult, getColumnsFromResult, hs, rawErrorMessage,
            he, jsOrStr, hm]
  · intro r rd fr rest hs hrd hres hft
    constructor <;>
      simp [getRowsFromResult, getColumnsFromResult, hs, hrd, hres, hft]

/-- A failure envelope reporting a message. -/
def rawErrEnvelope : RawResponse :=
  { status := "error"
    exception := some { text := "syntax error in SELECT" }
    responseData := none }

/-- A success envelope whose first entry is a bare row-count
acknowledgement, not a tabular entry. -/
def rawAckEnvelope : RawResponse :=
  { status := "ok"
    exception := none
    responseData :=
      some { results := [{ resultType := "rowCount"
                           resultSet := none
                           rowCount := some 3 }] } }

/-- Witness for claim C5 at the two concrete envelopes. -/
theorem claim_C5_normalizer_witness :
    (getRowsFromResult (.raw rawErrEnvelope) = .error "syntax error in SELECT" ∧
     getColumnsFromResult (.raw rawErrEnvelope) = .error "syntax error in SELECT") ∧
    (getRowsFromResult (.raw rawAckEnvelope) = .ok [] ∧
     getColumnsFromResult (.raw rawAckEnvelope) = .ok []) :=
  ⟨claim_C5_normalizer.1 rawErrEnvelope "syntax error in SELECT"
      rfl rfl (by decide),
   claim_C5_normalizer.2 rawAckEnvelope
      { results := [{ resultType := "rowCount", resultSet := none,
                      rowCount := some 3 }] }
      { resultType := "rowCount", resultSet := none, rowCount := some 3 }
      [] rfl rfl rfl (by decide)⟩

/-! ## Claim C9 — transient error with no resolvable connection id -/

/-- Claim C9: when `executeWithRetry` is called without an explicit
connection id while no active connection is set, a transient-classified
error is propagated unchanged, the handle is not reset, and `fn` runs
exactly once: the single automatic retry is skipped. -/
theorem claim_C9_no_active_retry {α : Type} (st : CMState)
    (fn : Nat → CMState → Except String α × CMState × List DriverEvent)
    (e : String) (h0 : (fn 0 st).1 = .error e)
    (hT : isConnectionError e = true)
    (hA : (fn 0 st).2.1.activeConnection = none) :
    (executeWithRetry st fn none).result = .error e ∧
    (executeWithRetry st fn none).fnCalls = 1 ∧
    (executeWithRetry st fn none).resets = 0 ∧
    (executeWithRetry st fn none).state = (fn 0 st).2.1 := by
  simp [executeWithRetry, h0, hT, resolveId, jsOrString, hA]

/-- The initial state of a freshly constructed manager: no records, no
active pointer, no cached handles, empty stores. -/
def cstEmpty : CMState :=
  { connections := [], activeConnection := none, drivers := []
    secrets := [], globalMeta := [] }

/-- An operation that always fails with a timeout-classified error. -/
def cfnTimeout : Nat → CMState → Except String Unit × CMState × List DriverEvent :=
  fun _ s => (.error "ETIMEDOUT", s, [])

/-- Witness for claim C9 on the empty state. -/
theorem claim_C9_no_active_retry_witness :
    (executeWithRetry cstEmpty cfnTimeout none).result = .error "ETIMEDOUT" ∧
    (executeWithRetry cstEmpty cfnTimeout none).fnCalls = 1 ∧
    (executeWithRetry cstEmpty cfnTimeout none).resets = 0 :=
  ⟨(claim_C9_no_active_retry cstEmpty cfnTimeout "ETIMEDOUT" rfl (by decide) rfl).1,
   (claim_C9_no_active_retry cstEmpty cfnTimeout "ETIMEDOUT" rfl (by decide) rfl).2.1,
   (claim_C9_no_active_retry cstEmpty cfnTimeout "ETIMEDOUT" rfl (by decide) rfl).2.2.1⟩

/-- A resolved connection id is never the empty string. -/
theorem resolveId_ne_empty (a b : Option String) :
    resolveId a b = some "" → False := by
  unfold resolveId
  cases jsOrString a b with
  | none => simp
  | some s => by_cases hs : s = "" <;> simp [hs]

/-! ## Concrete fixtures shared by witnesses and counterexamples -/

/-- An operation that always fails with a driver-reported SQL error,
which the transient classifier rejects. -/
def cfnBadSql : Nat → CMState → Except String Unit × CMState × List DriverEvent :=
  fun _ s => (.error "object X not found", s, [])

/-- A stored connection record used by concrete states. -/
def connA : StoredConnection :=
  { id := "A", name := "A", host := "db.example:8563", user := "sys"
    password := "pw", database := none, schema := none }

/-- A fresh handle as yielded by a successful connect. -/
def freshHandle : DriverHandle := { readyState := some 1, probe := .success }

/-- A state holding one record whose cached handle has no transport
flag and a probe that times out: stale, discovered by tier 2. -/
def cstStale : CMState :=
  { connections := [("A", connA)]
    activeConnection := some "A"
    drivers := [("A", { readyState := none, probe := .timeout })]
    secrets := [("exasol.password.A", "pw")]
    globalMeta := [stripPassword connA] }

/-! ## Claim C1 — the single automatic reset-and-retry -/

/-- Claim C1, corrected: the dichotomy holds whenever `executeWithRetry`
can resolve a non-empty connection id (the explicitly passed id, or
else the active connection).  With such an id, a transient-classified
first failure leads to exactly one handle reset, exactly one further
invocation of `fn`, and the second outcome is returned or propagated;
a non-transient first failure propagates unchanged with no reset and a
single invocation.  (Without a resolvable id the retry is skipped even
for transient errors — see the counterexample and claim C9.) -/
theorem claim_C1_retry {α : Type} (st : CMState)
    (fn : Nat → CMState → Except String α × CMState × List DriverEvent)
    (cid : Option String) (e : String) (i : String)
    (h0 : (fn 0 st).1 = .error e) :
    (isConnectionError e = true →
      resolveId cid (fn 0 st).2.1.activeConnection = some i →
      (executeWithRetry st fn cid).result =
        (fn 1 (resetDriver (fn 0 st).2.1 (some i))).1 ∧
      (executeWithRetry st fn cid).state =
        (fn 1 (resetDriver (fn 0 st).2.1 (some i))).2.1 ∧
      (executeWithRetry st fn cid).fnCalls = 2 ∧
      (executeWithRetry st fn cid).resets = 1 ∧
      (resetDriver (fn 0 st).2.1 (some i)).drivers =
        mapDelete i (fn 0 st).2.1.drivers) ∧
    (isConnectionError e = false →
      (executeWithRetry st fn cid).result = .error e ∧
      (executeWithRetry st fn cid).fnCalls = 1 ∧
      (executeWithRetry st fn cid).resets = 0 ∧
      (executeWithRetry st fn cid).state = (fn 0 st).2.1) := by
  constructor
  · intro hT hid
    have hne : i ≠ "" := by
      intro hi
      subst hi
      exact resolveId_ne_empty cid (fn 0 st).2.1.activeConnection hid
    have hreset : resetDriver (fn 0 st).2.1 (some i) =
        { (fn 0 st).2.1 with drivers := mapDelete i (fn 0 st).2.1.drivers } := by
      simp [resetDriver, resolveId, jsOrString, hne]
    refine ⟨?_, ?_, ?_, ?_, ?_⟩ <;>
      simp [executeWithRetry, h0, hT, hid, hreset]
  · intro hF
    refine ⟨?_, ?_, ?_, ?_⟩ <;> simp [executeWithRetry, h0, hF]

/-- Witness for claim C1: a transient failure with an explicit id on
the empty state retries once; a non-transient failure does not. -/
theorem claim_C1_retry_witness :
    ((executeWithRetry cstEmpty cfnTimeout (some "A")).fnCalls = 2 ∧
     (executeWithRetry cstEmpty cfnTimeout (some "A")).resets = 1 ∧
     (executeWithRetry cstEmpty cfnTimeout (some "A")).result =
       .error "ETIMEDOUT") ∧
    ((executeWithRetry cstEmpty cfnBadSql none).fnCalls = 1 ∧
     (executeWithRetry cstEmpty cfnBadSql none).resets = 0 ∧
     (executeWithRetry cstEmpty cfnBadSql none).result =
       .error "object X not found") := by
  have h1 := (claim_C1_retry cstEmpty cfnTimeout (some "A") "ETIMEDOUT" "A"
    rfl).1 (by decide) (by decide)
  have h2 := (claim_C1_retry cstEmpty cfnBadSql none "object X not found" ""
    rfl).2 (by decide)
  exact ⟨⟨h1.2.2.1, h1.2.2.2.1, h1.1⟩, ⟨h2.2.1, h2.2.2.1, h2.1⟩⟩

/-- Counterexample for claim C1 as stated: a transient-classified
error thrown while no explicit id is given and no active connection is
set is propagated after a single invocation with no reset, not retried
as the unconditional claim demands. -/
theorem claim_C1_cx :
    isConnectionError "ETIMEDOUT" = true ∧
    (executeWithRetry cstEmpty cfnTimeout none).fnCalls = 1 ∧
    (executeWithRetry cstEmpty cfnTimeout none).resets = 0 ∧
    (executeWithRetry cstEmpty cfnTimeout none).result = .error "ETIMEDOUT" := by
  refine ⟨by decide, ?_, ?_, ?_⟩ <;> rfl

/-! ## Claim C6 — two-tier stale-handle validation -/

/-- Claim C6, corrected: a transport flag exposing anything other than
open kills the handle immediately with no round-trip probe; the probe
is issued exactly when the flag is unavailable or reports open (not
only when it is unavailable, as claimed); a failed or timed-out probe
marks the handle dead; and `getDriver` replaces an invalid cached
handle with a freshly created one. -/
theorem claim_C6_validation :
    (∀ (d : DriverHandle) (rs : Nat), d.readyState = some rs → rs ≠ 1 →
      validateDriver d = { isValid := false, probeIssued := false }) ∧
    (∀ d : DriverHandle, (validateDriver d).probeIssued = true ↔
      (d.readyState = none ∨ d.readyState = some 1)) ∧
    (∀ d : DriverHandle, isWebSocketHealthy d = true →
      d.probe ≠ ProbeOutcome.success → (validateDriver d).isValid = false) ∧
    (∀ (st : CMState) (i : String) (d fresh : DriverHandle)
        (c : StoredConnection), i ≠ "" →
      mapGet i st.connections = some c → mapGet i st.drivers = some d →
      (validateDriver d).isValid = false →
      ∃ st1 evs, getDriverEv st (some i) fresh = .ok (fresh, st1, evs) ∧
        mapGet i st1.drivers = some fresh) := by
  refine ⟨?_, ?_, ?_, ?_⟩
  · intro d rs hrs h1
    simp [validateDriver, isWebSocketHealthy, hrs, h1]
  · intro d
    match hd : d.readyState with
    | none =>
      simp [validateDriver, isWebSocketHealthy, hd]
      cases d.probe <;> simp
    | some rs =>
      by_cases h1 : rs = 1
      · subst h1
        simp [validateDriver, isWebSocketHealthy, hd]
        cases d.probe <;> simp
      · simp [validateDriver, isWebSocketHealthy, hd, h1]
  · intro d hh hp
    simp only [validateDriver, hh, Bool.not_true, Bool.false_eq_true,
      if_false]
    cases hq : d.probe <;> simp_all
  · intro st i d fresh c hne hc hd hv
    refine ⟨{ st with drivers := mapSet i fresh (mapDelete i st.drivers) },
      (if (validateDriver d).probeIssued then
        [DriverEvent.probeQuery "SELECT 1"] else []) ++ [DriverEvent.connect],
      ?_, ?_⟩
    · simp [getDriverEv, resolveId, jsOrString, hne, hc, hd, hv]
    · exact mapGet_mapSet_self i fresh _

/-- Witness for claim C6: a handle whose flag reports CLOSED (3) is
rejected without a probe; a handle with no flag issues the probe; a
probe timeout invalidates; and `getDriver` then caches a fresh
handle. -/
theorem claim_C6_validation_witness :
    validateDriver { readyState := some 3, probe := .success } =
      { isValid := false, probeIssued := false } ∧
    ((validateDriver { readyState := none, probe := .timeout }).probeIssued = true) ∧
    ((validateDriver { readyState := none, probe := .timeout }).isValid = false) ∧
    (∃ st1 evs,
      getDriverEv cstStale (some "A") freshHandle = .ok (freshHandle, st1, evs) ∧
      mapGet "A" st1.drivers = some freshHandle) := by
  refine ⟨?_, ?_, ?_, ?_⟩
  · exact claim_C6_validation.1 { readyState := some 3, probe := .success } 3
      rfl (by decide)
  · exact (claim_C6_validation.2.1 { readyState := none, probe := .timeout }).2
      (Or.inl rfl)
  · exact claim_C6_validation.2.2.1 { readyState := none, probe := .timeout }
      rfl (by decide)
  · exact claim_C6_validation.2.2.2 cstStale "A"
      { readyState := none, probe := .timeout } freshHandle connA
      (by decide) rfl rfl (by decide)

/-- Counterexample for claim C6 as stated: the transport flag is
exposed and reports open (readyState 1), yet the round-trip probe is
still issued — the probe is not reserved for the flag-unavailable
case. -/
theorem claim_C6_cx :
    (validateDriver { readyState := some 1, probe := .timeout }).probeIssued = true ∧
    ({ readyState := some 1, probe := .timeout } : DriverHandle).readyState ≠ none ∧
    (validateDriver { readyState := some 1, probe := .timeout }).isValid = false := by
  refine ⟨?_, ?_, ?_⟩ <;> decide

/-! ## Claim C7 — addConnection round trip and password hygiene -/

/-- The record `addConnection` builds from a spec and `Date.now()`. -/
def mkStored (spec : ExasolConnection) (now : Nat) : StoredConnection :=
  { id := spec.name ++ "-" ++ toString now
    name := spec.name
    host := spec.host
    user := spec.user
    password := spec.password
    database := spec.database
    schema := spec.schema }

/-- Claim C7: after a successful `addConnection(spec)` the registry
contains a record whose non-secret fields equal the spec, the secret
store holds the password under the key derived from the fresh id, and
the metadata store holds exactly the password-stripped projection of
the records — and the projection is invariant under the password
field, so the password value never reaches the metadata store. -/
theorem claim_C7_add_roundtrip (st : CMState) (spec : ExasolConnection)
    (now : Nat) :
    ∃ id st1, addConnection st spec now true = .ok (id, st1) ∧
      (∃ r, r ∈ getConnections st1 ∧ r.name = spec.name ∧
        r.host = spec.host ∧ r.user = spec.user ∧ r.schema = spec.schema) ∧
      mapGet ("exasol.password." ++ id) st1.secrets = some spec.password ∧
      st1.globalMeta = (getConnections st1).map stripPassword ∧
      (∀ (c : StoredConnection) (p : String),
        stripPassword { c with password := p } = stripPassword c) := by
  refine ⟨spec.name ++ "-" ++ toString now, _, rfl, ?_, ?_, ?_, ?_⟩
  · exact ⟨mkStored spec now, mem_values_mapSet _ _ st.connections,
      rfl, rfl, rfl, rfl⟩
  · exact mapGet_mapSet_self _ spec.password st.secrets
  · rfl
  · intro c p
    rfl

/-! ## Claim C8 — removeConnection -/

/-- Claim C8: `removeConnection(id)` deletes the metadata record, the
stored secret and any cached handle for the id; when the removed id
was the active connection the pointer falls to the first remaining
record of the insertion-ordered map (this is the connection the source
obtains from the next step of the map iterator), or becomes unset when
none remain; otherwise the pointer is untouched.  The well-formedness
hypothesis states that every record is stored under its own id. -/
theorem claim_C8_remove (st : CMState) (id : String)
    (hwf : ∀ p ∈ st.connections, p.2.id = p.1) :
    mapGet id (removeConnection st id).connections = none ∧
    mapGet ("exasol.password." ++ id) (removeConnection st id).secrets = none ∧
    mapGet id (removeConnection st id).drivers = none ∧
    (∀ m ∈ (removeConnection st id).globalMeta, m.id ≠ id) ∧
    (st.activeConnection = some id →
      (removeConnection st id).activeConnection =
        (mapDelete id st.connections).head?.map (fun p => p.2.id)) ∧
    (st.activeConnection ≠ some id →
      (removeConnection st id).activeConnection = st.activeConnection) := by
  refine ⟨?_, ?_, ?_, ?_, ?_, ?_⟩
  · exact mapGet_mapDelete_self id st.connections
  · exact mapGet_mapDelete_self _ st.secrets
  · exact mapGet_mapDelete_self id st.drivers
  · intro m hm
    simp only [removeConnection, saveConnections, List.map_map,
      List.mem_map] at hm
    obtain ⟨p, hp, hm⟩ := hm
    obtain ⟨hpl, hpk⟩ := mem_mapDelete id st.connections p hp
    have hid : m.id = p.2.id := by
      subst hm
      rfl
    rw [hid, hwf p hpl]
    exact hpk
  · intro hA
    simp only [removeConnection, hA, if_pos rfl]
    cases h : (mapDelete id st.connections).head? with
    | none => simp
    | some p => simp
  · intro hA
    simp [removeConnection, hA]

/-- A two-record state whose first record is active and has a cached
handle. -/
def connB : StoredConnection :=
  { id := "B", name := "B", host := "other.example:8563", user := "sys"
    password := "pw2", database := none, schema := none }

def cstTwo : CMState :=
  { connections := [("A", connA), ("B", connB)]
    activeConnection := some "A"
    drivers := [("A", freshHandle)]
    secrets := [("exasol.password.A", "pw"), ("exasol.password.B", "pw2")]
    globalMeta := [stripPassword connA, stripPassword connB] }

/-- Witness for claim C8: removing the active first record deletes its
metadata, secret and handle, and the pointer falls to the remaining
record. -/
theorem claim_C8_remove_witness :
    mapGet "A" (removeConnection cstTwo "A").connections = none ∧
    mapGet "exasol.password.A" (removeConnection cstTwo "A").secrets = none ∧
    mapGet "A" (removeConnection cstTwo "A").drivers = none ∧
    (removeConnection cstTwo "A").activeConnection =
      (mapDelete "A" cstTwo.connections).head?.map (fun p => p.2.id) := by
  have h := claim_C8_remove cstTwo "A" (by decide)
  exact ⟨h.1, h.2.1, h.2.2.1, h.2.2.2.2.1 rfl⟩

/-! ## Claim C10 — executeAndFetch row cap -/

/-- Every successful outcome of one `executeAndFetch` attempt is
truncated to the cap and reports the truncated length. -/
theorem fetchAttempt_ok_shape (env : ExecEnv) (query : String)
    (maxRows : Nat) (attempt : Nat) (st : CMState) (qr : QueryResult)
    (h : (fetchAttempt env query maxRows attempt st).1 = .ok qr) :
    qr.rows.length ≤ maxRows ∧ qr.rowCount = qr.rows.length := by
  unfold fetchAttempt at h
  cases hg : getDriverEv st none (env.fresh attempt) with
  | error e =>
    rw [hg] at h
    simp at h
  | ok trip =>
    obtain ⟨dd, st1, evs⟩ := trip
    rw [hg] at h
    simp only [] at h
    cases hq : env.queryResp attempt with
    | error e =>
      rw [hq] at h
      simp at h
    | ok resp =>
      rw [hq] at h
      simp only [] at h
      cases hc : getColumnsFromResult resp with
      | error e =>
        rw [hc] at h
        simp at h
      | ok colsMeta =>
        rw [hc] at h
        cases hr : getRowsFromResult resp with
        | error e =>
          rw [hr] at h
          simp at h
        | ok allRows =>
          rw [hr] at h
          simp only [Except.ok.injEq] at h
          subst h
          exact ⟨List.length_take_le maxRows allRows, rfl⟩

/-- Claim C10: with a positive explicit cap `n`, a successful
`executeAndFetch` yields at most `n` rows and `rowCount` equals the
number of rows after truncation; a cap of 0 is falsy in the source and
silently falls back to the configured `maxResultRows` default — the
call behaves exactly like a call with no cap at all. -/
theorem claim_C10_fetch_limit :
    (∀ (st : CMState) (query : String) (n : Nat) (cfg : Option Nat)
        (env : ExecEnv) (qr : QueryResult), n ≠ 0 →
      (executeAndFetch st query (some n) cfg env).result = .ok qr →
      qr.rows.length ≤ n ∧ qr.rowCount = qr.rows.length) ∧
    (∀ (st : CMState) (query : String) (cfg : Option Nat) (env : ExecEnv),
      executeAndFetch st query (some 0) cfg env =
        executeAndFetch st query none cfg env) := by
  constructor
  · intro st query n cfg env qr hn h
    have hmax : jsOrNat (some n) (cfg.getD 10000) = n := by
      simp [jsOrNat, hn]
    unfold executeAndFetch at h
    rw [hmax] at h
    unfold executeWithRetry at h
    simp only [] at h
    cases h0 : (fetchAttempt env query n 0 st).1 with
    | ok v =>
      rw [h0] at h
      simp only [Except.ok.injEq] at h
      subst h
      exact fetchAttempt_ok_shape env query n 0 st _ h0
    | error e =>
      rw [h0] at h
      simp only [] at h
      by_cases hT : isConnectionError e
      · rw [if_pos hT] at h
        cases hj : resolveId none
            (fetchAttempt env query n 0 st).2.1.activeConnection with
        | none =>
          rw [hj] at h
          simp at h
        | some i =>
          rw [hj] at h
          simp only [RetryOutcome.result] at h
          exact fetchAttempt_ok_shape env query n 1 _ qr h
      · rw [if_neg hT] at h
        simp at h
  · intro st query cfg env
    unfold executeAndFetch
    simp [jsOrNat]

/-- Environment in which the driver returns two rows for every
query. -/
def cenvTwoRows : ExecEnv :=
  { fresh := fun _ => freshHandle
    queryResp := fun _ => .ok (.typed [{ name := "A", dataType := none }]
      [[("A", .num 1)], [("A", .num 2)]])
    execResp := fun _ => .ok (.typed [] [])
    preCancelled := false
    postCancelled := false
    elapsed := 0 }

/-- A state with one record, active, and no cached handle. -/
def cstLiveNoHandle : CMState :=
  { connections := [("A", connA)]
    activeConnection := some "A"
    drivers := []
    secrets := [("exasol.password.A", "pw")]
    globalMeta := [stripPassword connA] }

/-- The result the capped fetch of the witness produces. -/
def cqrOneRow : QueryResult :=
  { columns := ["A"]
    columnMetadata :=
      [{ name := "A", type := "VARCHAR", precision := none, scale := none,
         size := none }]
    rows := [[("A", JsonVal.num 1)]]
    rowCount := 1
    executionTime := 0 }

/-- Witness for claim C10: a fetch capped at 1 over a two-row response
keeps at most one row and reports the truncated count, and the cap 0
call equals the uncapped call. -/
theorem claim_C10_fetch_limit_witness :
    ((executeAndFetch cstLiveNoHandle "SELECT A FROM T" (some 1) none
        cenvTwoRows).result = .ok cqrOneRow ∧
      cqrOneRow.rows.length ≤ 1 ∧ cqrOneRow.rowCount = cqrOneRow.rows.length) ∧
    executeAndFetch cstLiveNoHandle "SELECT A FROM T" (some 0) none
        cenvTwoRows =
      executeAndFetch cstLiveNoHandle "SELECT A FROM T" none none
        cenvTwoRows := by
  have hres : (executeAndFetch cstLiveNoHandle "SELECT A FROM T" (some 1) none
      cenvTwoRows).result = .ok cqrOneRow := by rfl
  have hshape := claim_C10_fetch_limit.1 cstLiveNoHandle "SELECT A FROM T"
    1 none cenvTwoRows cqrOneRow (by decide) hres
  exact ⟨⟨hres, hshape.1, hshape.2⟩,
    claim_C10_fetch_limit.2 cstLiveNoHandle "SELECT A FROM T" none cenvTwoRows⟩

/-! ## Claim C3 — cooperative cancellation -/

/-- With the token already cancelled at the pre-dispatch poll point,
one attempt fails with the cancellation error and performs no dispatch
call (its driver events are only handle validation or connect). -/
theorem executeAttempt_pre (env : ExecEnv) (fq : String) (attempt : Nat)
    (st : CMState) (i : String) (c : StoredConnection)
    (hne : i ≠ "") (hA : st.activeConnection = some i)
    (hC : mapGet i st.connections = some c)
    (hpre : env.preCancelled = true) :
    (executeAttempt env fq attempt st).1 =
      .error "Query execution was cancelled" ∧
    (executeAttempt env fq attempt st).2.2.all
      (fun ev => !(isDispatchEvent ev)) = true := by
  have hres : resolveId none st.activeConnection = some i := by
    simp [resolveId, jsOrString, hA, hne]
  cases hd : mapGet i st.drivers with
  | none =>
    constructor <;>
      simp [executeAttempt, getDriverEv, hres, hC, hd, hpre, isDispatchEvent]
  | some d =>
    by_cases hv : (validateDriver d).isValid <;>
      cases hp : (validateDriver d).probeIssued <;>
        constructor <;>
          simp [executeAttempt, getDriverEv, hres, hC, hd, hv, hp, hpre,
                isDispatchEvent]

/-- With the token cancelled at the post-return poll point and the
dispatch call returning normally, one attempt still fails with the
cancellation error: the returned data is discarded. -/
theorem executeAttempt_post (env : ExecEnv) (fq : String) (attempt : Nat)
    (st : CMState) (i : String) (c : StoredConnection)
    (hne : i ≠ "") (hA : st.activeConnection = some i)
    (hC : mapGet i st.connections = some c)
    (hpre : env.preCancelled = false) (hpost : env.postCancelled = true)
    (rq re : DriverResult) (hq : env.queryResp attempt = .ok rq)
    (he : env.execResp attempt = .ok re) :
    (executeAttempt env fq attempt st).1 =
      .error "Query execution was cancelled" := by
  have hres : resolveId none st.activeConnection = some i := by
    simp [resolveId, jsOrString, hA, hne]
  cases hd : mapGet i st.drivers with
  | none =>
    cases hcls : isResultSetQuery fq <;>
      simp [executeAttempt, getDriverEv, hres, hC, hd, hpre, hpost, hcls,
            hq, he]
  | some d =>
    by_cases hv : (validateDriver d).isValid <;>
      cases hcls : isResultSetQuery fq <;>
        simp [executeAttempt, getDriverEv, hres, hC, hd, hv, hpre, hpost,
              hcls, hq, he]

/-- Claim C3, corrected: with an active connection set, a token that
is already cancelled at the pre-dispatch poll point makes `execute`
fail with the cancellation error and prevents the dispatch call (no
result-returning or no-result driver call happens; obtaining the
driver handle may still touch the driver through validation or
connect — see the counterexample); a token cancelled after the
dispatch call returned still makes `execute` fail with the
cancellation error, so the returned data is never delivered. -/
theorem claim_C3_cancellation (st : CMState) (query : String)
    (cfg : Option Nat) (env : ExecEnv) (i : String) (c : StoredConnection)
    (hne : i ≠ "") (hA : st.activeConnection = some i)
    (hC : mapGet i st.connections = some c) :
    (env.preCancelled = true →
      (execute st query cfg env).result =
        .error "Query execution was cancelled" ∧
      (execute st query cfg env).events.all
        (fun ev => !(isDispatchEvent ev)) = true) ∧
    (env.preCancelled = false → env.postCancelled = true →
      ∀ rq re, env.queryResp 0 = .ok rq → env.execResp 0 = .ok re →
      (execute st query cfg env).result =
        .error "Query execution was cancelled") := by
  have hncs : isConnectionError "Query execution was cancelled" = false := by
    decide
  constructor
  · intro hpre
    have h1 := executeAttempt_pre env
      (executeFinalQuery query (cfg.getD 10000)) 0 st i c hne hA hC hpre
    constructor <;>
      simp [execute, getActiveConnection, hA, hne, hC, executeWithRetry,
            h1.1, h1.2, hncs]
  · intro hpre hpost rq re hq he
    have h1 := executeAttempt_post env
      (executeFinalQuery query (cfg.getD 10000)) 0 st i c hne hA hC
      hpre hpost rq re hq he
    simp [execute, getActiveConnection, hA, hne, hC, executeWithRetry,
          h1, hncs]

/-- Environment whose token is already cancelled before dispatch. -/
def cenvPre : ExecEnv :=
  { fresh := fun _ => freshHandle
    queryResp := fun _ => .ok (.typed [] [])
    execResp := fun _ => .ok (.typed [] [])
    preCancelled := true
    postCancelled := false
    elapsed := 0 }

/-- Environment whose token is cancelled only after the driver call
returns. -/
def cenvPost : ExecEnv :=
  { fresh := fun _ => freshHandle
    queryResp := fun _ => .ok (.typed [] [])
    execResp := fun _ => .ok (.typed [] [])
    preCancelled := false
    postCancelled := true
    elapsed := 0 }

/-- Witness for claim C3 at a concrete one-record state. -/
theorem claim_C3_cancellation_witness :
    ((execute cstLiveNoHandle "COMMIT" none cenvPre).result =
       .error "Query execution was cancelled" ∧
     (execute cstLiveNoHandle "COMMIT" none cenvPre).events.all
       (fun ev => !(isDispatchEvent ev)) = true) ∧
    (execute cstLiveNoHandle "COMMIT" none cenvPost).result =
      .error "Query execution was cancelled" := by
  have h1 := claim_C3_cancellation cstLiveNoHandle "COMMIT" none cenvPre
    "A" connA (by decide) rfl rfl
  have h2 := claim_C3_cancellation cstLiveNoHandle "COMMIT" none cenvPost
    "A" connA (by decide) rfl rfl
  exact ⟨h1.1 rfl, h2.2 rfl rfl (.typed [] []) (.typed [] []) rfl rfl⟩

/-- A state with one record, active, with a cached handle whose
transport flag reports open and whose probe succeeds. -/
def cstLiveCached : CMState :=
  { connections := [("A", connA)]
    activeConnection := some "A"
    drivers := [("A", freshHandle)]
    secrets := [("exasol.password.A", "pw")]
    globalMeta := [stripPassword connA] }

/-- Counterexample for claim C3 as stated: with the token already
cancelled before dispatch, `execute` does fail with the cancellation
error, but a driver call has still been made — the cached handle is
validated with the round-trip probe query before the token is ever
polled, so the events of the call are not empty. -/
theorem claim_C3_cx :
    (execute cstLiveCached "COMMIT" none cenvPre).result =
      .error "Query execution was cancelled" ∧
    (execute cstLiveCached "COMMIT" none cenvPre).events =
      [DriverEvent.probeQuery "SELECT 1"] := by
  constructor <;> rfl

end ExasolCore
